import Mathlib

/-!
Verification of the SREMS-TN estimation/optimization layer.

The repository ships a Next.js frontend together with documentation of a
FastAPI backend whose AI modules (solar forecasting, pump anomaly
detection, irrigation optimization) are described in the specification and
in the technical reports.  The frontend source is embedded directly; the
backend estimator functions are modelled from the specification, as marked
on each definition.  All floating-point quantities are embedded as
rational numbers.
-/

namespace Srems

/-- Weather/environmental reading consumed by the solar estimator and the
irrigation optimizer.  Fields follow the data model: temperatures in
Celsius, irradiance in W per square metre, humidity in percent, wind speed
in metres per second, rainfall over the last 24 hours in millimetres, and
a timestamp (hours since an epoch) from which time-of-day features are
derived. -/
structure WeatherReading where
  ambient_temperature : ℚ
  module_temperature : ℚ
  irradiance : ℚ
  humidity : ℚ
  wind_speed : ℚ
  rainfall_24h : ℚ
  timestamp : ℕ
deriving DecidableEq, Repr

/-- Recommendation entry attached to a power prediction. -/
structure SolarRecommendation where
  rtype : String
  message : String
  priority : String
deriving DecidableEq, Repr

/-- Output record of the solar estimator. -/
structure PowerPrediction where
  predicted_power_kw : ℚ
  confidence_score : ℚ
deriving DecidableEq, Repr

/-- Maximum of two rationals, written with an explicit comparison. -/
def maxQ (a b : ℚ) : ℚ := if a ≤ b then b else a

/-- Clamp a rational into the closed interval from lo to hi. -/
def clampQ (lo hi x : ℚ) : ℚ := if x < lo then lo else if hi < x then hi else x

/-- Modelled from the spec: rated capacity (kW) of the reference solar
installation used by the trained regression model (absent backend module
solar_forecasting.py). -/
def systemCapacityKw : ℚ := 6

/-- Modelled from the spec: per-degree temperature derating coefficient of
the solar module above 25 Celsius (absent backend module
solar_forecasting.py). -/
def deratePerDegree : ℚ := 1/250

/-- Hour of day (0-23) derived from a reading timestamp. -/
def hourOfDay (ts : ℕ) : ℕ := ts % 24

/-- Day of year (1-365) derived from a reading timestamp. -/
def dayOfYear (ts : ℕ) : ℕ := (ts / 24) % 365 + 1

/-- Weekend flag derived from a reading timestamp. -/
def isWeekend (ts : ℕ) : Bool := 5 ≤ (ts / 24) % 7

/-- Modelled from the spec: `predict_power` of the absent backend module
solar_forecasting.py.  Out-of-range numeric input is clamped, never
rejected: irradiance is clamped to the interval 0 to 1500 W per square
metre and temperatures to the interval -10 to 60 Celsius.  The learned
irradiance response is linear in clamped irradiance; the learned
temperature derating decreases output above a 25 Celsius module
temperature; the result is floored at zero and the confidence score is
clipped into the unit interval. -/
def predict_power (r : WeatherReading) : PowerPrediction :=
  let irrC := clampQ 0 1500 r.irradiance
  let mTC := clampQ (-10) 60 r.module_temperature
  let derate := 1 - deratePerDegree * maxQ 0 (mTC - 25)
  { predicted_power_kw := maxQ 0 (systemCapacityKw * (irrC / 1000) * derate)
    confidence_score := clampQ 0 1 (17/20) }

/-- Modelled from the spec: inference-time entry point of `predict_power`
seen from the request handler; the first argument stands for any ambient
process state (scheduling, seeds) present when the call is served.  The
trained model is fixed and inference reads none of that state. -/
def predict_power_at (_procState : ℕ) (r : WeatherReading) : PowerPrediction :=
  predict_power r

/-- Modelled from the spec: `daily_forecast` of the absent backend module
solar_forecasting.py — one prediction per input reading, in input order. -/
def daily_forecast (rs : List WeatherReading) : List PowerPrediction :=
  rs.map predict_power

/-- Fixed weather reading of the round-trip determinism property:
ambient 28, module 40, irradiance 750, humidity 45, wind 3. -/
def roundTripReading : WeatherReading :=
  { ambient_temperature := 28
    module_temperature := 40
    irradiance := 750
    humidity := 45
    wind_speed := 3
    rainfall_24h := 0
    timestamp := 0 }

/-- Operational sensor reading of a pump. -/
structure OperationalReading where
  flow_rate : ℚ
  pressure : ℚ
  power_consumption : ℚ
  vibration_level : ℚ
  temperature : ℚ
deriving DecidableEq, Repr

/-- Overall status classification of a health assessment. -/
inductive HealthStatus where
  | normal
  | warning
  | critical
deriving DecidableEq, Repr

/-- Structured validation error naming the offending field. -/
structure ValidationError where
  fieldName : String
deriving DecidableEq, Repr

/-- Health assessment returned by the equipment health estimator.  The
per-parameter analysis maps each parameter name to whether its raw value
lies inside the static nominal range table. -/
structure HealthAssessment where
  health_score : ℚ
  is_anomaly : Bool
  status : HealthStatus
  parameter_analysis : List (String × Bool)
deriving DecidableEq, Repr

/-- Status bucketing of a health score: at least 0.8 is normal, between
0.5 and 0.8 is warning, below 0.5 is critical. -/
def statusOfScore (s : ℚ) : HealthStatus :=
  if s < 1/2 then .critical
  else if s < 4/5 then .warning
  else .normal

/-- Modelled from the spec: decision boundary of the operational outlier
model, calibrated offline by the 15 percent contamination rate (absent
backend module pump_anomaly_detection.py). -/
def operationalAnomalyBoundary : ℚ := 1/2

/-- Whether a value lies inside a closed interval. -/
def inRange (lo hi x : ℚ) : Bool :=
  if lo ≤ x then (if x ≤ hi then true else false) else false

/-- Modelled from the spec: per-parameter analysis against the static
nominal range table of the absent backend module pump_anomaly_detection.py
(flow 20-80 L/min, pressure 2-5 bar, power 2-8 kW, vibration 0-0.5,
temperature 20-60 Celsius); each raw input is flagged individually,
independent of the overall ensemble score. -/
def parameterAnalysis (r : OperationalReading) : List (String × Bool) :=
  [("flow_rate", inRange 20 80 r.flow_rate),
   ("pressure", inRange 2 5 r.pressure),
   ("power_consumption", inRange 2 8 r.power_consumption),
   ("vibration_level", inRange 0 (1/2) r.vibration_level),
   ("temperature", inRange 20 60 r.temperature)]

/-- Number of parameters outside their nominal range. -/
def outOfRangeCount (r : OperationalReading) : ℕ :=
  ((parameterAnalysis r).filter fun e => !e.2).length

/-- Modelled from the spec: the operational outlier ensemble of the absent
backend module pump_anomaly_detection.py.  The anomaly score grows with
the number of out-of-nominal parameters; it is inverted and normalized
into a health score inside the unit interval. -/
def operationalHealthScore (r : OperationalReading) : ℚ :=
  clampQ 0 1 (1 - (3/10) * (outOfRangeCount r : ℚ))

/-- Modelled from the spec: `analyze_operational` of the absent backend
module pump_anomaly_detection.py.  A reading with a negative value for an
inherently non-negative field (flow_rate, pressure, power_consumption) is
rejected with a ValidationError naming that field; otherwise a health
assessment is produced with the documented status bucketing. -/
def analyze_operational (r : OperationalReading) :
    Except ValidationError HealthAssessment :=
  if r.flow_rate < 0 then .error { fieldName := "flow_rate" }
  else if r.pressure < 0 then .error { fieldName := "pressure" }
  else if r.power_consumption < 0 then .error { fieldName := "power_consumption" }
  else
    let s := operationalHealthScore r
    .ok { health_score := s
          is_anomaly := decide (s < operationalAnomalyBoundary)
          status := statusOfScore s
          parameter_analysis := parameterAnalysis r }

/-- Crop type enumeration of the farm profile. -/
inductive CropType where
  | cereals
  | vegetables
  | fruits
  | olives
  | citrus
  | fodder
  | mixed
deriving DecidableEq, Repr

/-- Soil type enumeration of the farm profile. -/
inductive SoilType where
  | clay
  | sandy
  | loamy
  | limestone
  | mixed
deriving DecidableEq, Repr

/-- Crop growth stage enumeration of the farm profile. -/
inductive GrowthStage where
  | initial
  | mid
  | late
deriving DecidableEq, Repr

/-- Farm and crop metadata consumed by the irrigation optimizer. -/
structure FarmProfile where
  crop_type : CropType
  soil_type : SoilType
  growth_stage : GrowthStage
  days_since_irrigation : ℕ
  irrigation_efficiency : ℚ
  farm_area_m2 : ℚ
deriving DecidableEq, Repr

/-- Soil moisture status buckets: below 30 critical, below 50 low, below
75 adequate, up to 90 optimal, above saturated. -/
inductive MoistureStatus where
  | critical
  | low
  | adequate
  | optimal
  | saturated
deriving DecidableEq, Repr

/-- Soil moisture prediction record: percent, status bucket, confidence. -/
structure MoisturePrediction where
  percent : ℚ
  status : MoistureStatus
  confidence : ℚ
deriving DecidableEq, Repr

/-- Status bucketing of a soil moisture percentage with the fixed
crop-and-soil-independent thresholds. -/
def moistureStatusOf (m : ℚ) : MoistureStatus :=
  if m < 30 then .critical
  else if m < 50 then .low
  else if m < 75 then .adequate
  else if m ≤ 90 then .optimal
  else .saturated

/-- Modelled from the spec: soil retention offset of the moisture
regression by soil type (absent backend module irrigation_optimizer.py);
clay retains water, sandy drains fast. -/
def soilMoistureOffset : SoilType → ℚ
  | .clay => 5
  | .sandy => -10
  | .loamy => 0
  | .limestone => -4
  | .mixed => 0

/-- Modelled from the spec: `predict_soil_moisture` of the absent backend
module irrigation_optimizer.py.  The learned regression decreases with
days since irrigation, rises with recent rainfall, shifts by soil type,
and its output is clamped into the 0 to 100 percent band before the
fixed-threshold bucketing is applied. -/
def predict_soil_moisture (env : WeatherReading) (farm : FarmProfile) :
    MoisturePrediction :=
  let raw := 85 - 7 * (farm.days_since_irrigation : ℚ)
      + soilMoistureOffset farm.soil_type + env.rainfall_24h / 2
  let m := clampQ 0 100 raw
  { percent := m, status := moistureStatusOf m, confidence := 3/4 }

/-- Crop coefficient table keyed by crop type and growth stage, from the
technical report: cereals 0.4/1.15/0.4, vegetables (legumes) 0.6/1.15/0.8,
fruits 0.45/1.05/0.65, olives 0.5/0.8/0.6; remaining crop types fall back
to a neutral mid-range profile. -/
def cropCoefficient : CropType → GrowthStage → ℚ
  | .cereals, .initial => 2/5
  | .cereals, .mid => 23/20
  | .cereals, .late => 2/5
  | .vegetables, .initial => 3/5
  | .vegetables, .mid => 23/20
  | .vegetables, .late => 4/5
  | .fruits, .initial => 9/20
  | .fruits, .mid => 21/20
  | .fruits, .late => 13/20
  | .olives, .initial => 1/2
  | .olives, .mid => 4/5
  | .olives, .late => 3/5
  | _, .initial => 1/2
  | _, .mid => 1
  | _, .late => 3/5

/-- Modelled from the spec: soil-type demand multiplier of the absent
backend module irrigation_optimizer.py; sandy soils increase demand, clay
decreases it. -/
def soilDemandMultiplier : SoilType → ℚ
  | .clay => 17/20
  | .sandy => 6/5
  | .loamy => 1
  | .limestone => 11/10
  | .mixed => 1

/-- Modelled from the spec: reference evapotranspiration of the
Penman-Monteith formulation in the absent backend module
irrigation_optimizer.py — rises with temperature, radiation and wind,
falls with humidity, floored at zero; it reads no rainfall. -/
def referenceEt0 (env : WeatherReading) : ℚ :=
  maxQ 0 (env.ambient_temperature * 3/10 + env.irradiance / 400
    + env.wind_speed / 2 - env.humidity / 25)

/-- Daily crop water demand before the rainfall adjustment: reference
evapotranspiration scaled by the crop coefficient and the soil-type
multiplier. -/
def baseWaterDemand (env : WeatherReading) (farm : FarmProfile) : ℚ :=
  referenceEt0 env * cropCoefficient farm.crop_type farm.growth_stage
    * soilDemandMultiplier farm.soil_type

/-- Modelled from the spec: `calculate_water_demand` of the absent backend
module irrigation_optimizer.py.  Each millimetre of rainfall over the last
24 hours is subtracted from the base demand (one millimetre is one litre
per square metre) and the result is floored at zero. -/
def calculate_water_demand (env : WeatherReading) (farm : FarmProfile) : ℚ :=
  maxQ 0 (baseWaterDemand env farm - env.rainfall_24h)

/-- Copy of an environmental reading with the rainfall field replaced. -/
def withRainfall (env : WeatherReading) (r : ℚ) : WeatherReading :=
  { env with rainfall_24h := r }

/-- Schedule entry of an irrigation plan: start hour relative to the
forecast origin, run duration, priority, and the expected energy source. -/
structure ScheduleEntry where
  start_time : ℕ
  duration_minutes : ℚ
  priority : String
  expected_energy_source : String
deriving DecidableEq, Repr

/-- Irrigation plan returned by the optimizer. -/
structure IrrigationPlan where
  predicted_soil_moisture_percent : ℚ
  moisture_status : MoistureStatus
  water_demand_l_per_m2_per_day : ℚ
  schedule : List ScheduleEntry
  optimization_score : ℚ
deriving DecidableEq, Repr

/-- Scan step of the forecast window search: carries the best index and
value so far; a strictly larger value replaces them, so ties keep the
earliest window. -/
def bestSlotAux (bi : ℕ) (bv : ℚ) (i : ℕ) : List ℚ → ℕ × ℚ
  | [] => (bi, bv)
  | x :: xs => if bv < x then bestSlotAux i x (i + 1) xs else bestSlotAux bi bv (i + 1) xs

/-- Earliest index of maximal predicted power in a forecast, with that
maximal value; none for the empty forecast. -/
def bestSlot : List ℚ → Option (ℕ × ℚ)
  | [] => none
  | x :: xs => some (bestSlotAux 0 x 1 xs)

/-- Modelled from the spec: the documented fixed default window (early
morning, 06:00) used when no solar forecast is available (absent backend
module irrigation_optimizer.py). -/
def defaultWindowStart : ℕ := 6

/-- Modelled from the spec: pump flow-rate assumption (litres per minute)
carried in the farm/device metadata (absent backend module
irrigation_optimizer.py). -/
def assumedPumpFlowLPerMin : ℚ := 50

/-- Irrigation run duration in minutes derived from the daily water demand,
the farm area, the irrigation efficiency and the pump flow assumption. -/
def irrigationDurationMin (env : WeatherReading) (farm : FarmProfile) : ℚ :=
  if farm.irrigation_efficiency ≤ 0 then 0
  else calculate_water_demand env farm * farm.farm_area_m2
    / (assumedPumpFlowLPerMin * farm.irrigation_efficiency)

/-- Moisture-urgency inverse component of the optimization score: zero in
an emergency, one when moisture needs no urgent action. -/
def urgencyInverse : MoistureStatus → ℚ
  | .critical => 0
  | .low => 1/2
  | .adequate => 4/5
  | .optimal => 1
  | .saturated => 1

/-- Water-savings component: fraction of the base demand already covered
by recent rainfall. -/
def waterSavingsPart (env : WeatherReading) (farm : FarmProfile) : ℚ :=
  let b := baseWaterDemand env farm
  if b ≤ 0 then 0
  else (b - calculate_water_demand env farm) / b

/-- Modelled from the spec: the optimization score (0-100) as the fixed
design-time weighted combination of the solar-alignment, urgency-inverse
and water-savings components, weights 0.5, 0.3 and 0.2 (absent backend
module irrigation_optimizer.py). -/
def optScore (align urg sav : ℚ) : ℚ :=
  100 * (1/2 * align + 3/10 * urg + 1/5 * sav)

/-- Modelled from the spec: `optimize_schedule` of the absent backend
module irrigation_optimizer.py.  The heuristic computes current moisture
and water demand; when moisture is critical it schedules immediately,
ignoring the solar forecast, with the emergency slot scoring no alignment
and no urgency-inverse credit; otherwise it schedules in the earliest
window of maximal forecast power (alignment credit one whenever positive
power is forecast); an empty forecast is not an error and falls back to
the fixed early-morning default window with no alignment credit. -/
def optimize_schedule (env : WeatherReading) (farm : FarmProfile)
    (solar_forecast : List PowerPrediction) : IrrigationPlan :=
  let sm := predict_soil_moisture env farm
  let demand := calculate_water_demand env farm
  let dur := irrigationDurationMin env farm
  let sav := waterSavingsPart env farm
  if sm.status = .critical then
    { predicted_soil_moisture_percent := sm.percent
      moisture_status := sm.status
      water_demand_l_per_m2_per_day := demand
      schedule := [{ start_time := 0, duration_minutes := dur,
                     priority := "high", expected_energy_source := "any_available" }]
      optimization_score := optScore 0 0 sav }
  else
    match bestSlot (solar_forecast.map PowerPrediction.predicted_power_kw) with
    | some (i, v) =>
      { predicted_soil_moisture_percent := sm.percent
        moisture_status := sm.status
        water_demand_l_per_m2_per_day := demand
        schedule := [{ start_time := i, duration_minutes := dur,
                       priority := "medium", expected_energy_source := "solar" }]
        optimization_score := optScore (if 0 < v then 1 else 0) (urgencyInverse sm.status) sav }
    | none =>
      { predicted_soil_moisture_percent := sm.percent
        moisture_status := sm.status
        water_demand_l_per_m2_per_day := demand
        schedule := [{ start_time := defaultWindowStart, duration_minutes := dur,
                       priority := "medium", expected_energy_source := "grid" }]
        optimization_score := optScore 0 (urgencyInverse sm.status) sav }

/-! Frontend farmer dashboard (embedded from the source page): the AI
insights loader with its hardcoded fallback payloads, and the generated
24-hour weather forecast. -/

/-- Solar conditions block of the dashboard AI-insights payload. -/
structure UiSolarConditions where
  predicted_power_kw : ℚ
  confidence_score : ℚ
deriving DecidableEq, Repr

/-- Solar block of the dashboard AI-insights payload. -/
structure UiSolarInsights where
  current_conditions : UiSolarConditions
  recommendations : List SolarRecommendation
deriving DecidableEq, Repr

/-- Soil-moisture block of the dashboard AI-insights payload. -/
structure UiSoilMoisture where
  predicted_soil_moisture_percent : ℚ
  moisture_status : String
deriving DecidableEq, Repr

/-- Irrigation recommendation entry of the dashboard AI-insights payload. -/
structure UiIrrigationRecommendation where
  priority : String
  message : String
deriving DecidableEq, Repr

/-- Irrigation block of the dashboard AI-insights payload. -/
structure UiIrrigationInsights where
  current_soil_moisture : UiSoilMoisture
  irrigation_recommendations : List UiIrrigationRecommendation
deriving DecidableEq, Repr

/-- Dashboard AI-insights payload displayed by the farmer dashboard. -/
structure UiAIInsights where
  solar : UiSolarInsights
  irrigation : UiIrrigationInsights
deriving DecidableEq, Repr

/-- Outcome of the fetch to the farmer-insights endpoint as seen by
loadAIInsights: an ok response carrying a payload, a non-ok HTTP
response, or a thrown fetch error. -/
inductive FetchOutcome where
  | ok (payload : UiAIInsights)
  | httpNotOk
  | fetchThrown
deriving DecidableEq, Repr

/-- Hardcoded fallback payload of the non-ok-response branch of
loadAIInsights, transcribed literally from the dashboard source. -/
def fallbackInsightsHttp : UiAIInsights :=
  { solar :=
      { current_conditions := { predicted_power_kw := 21/5, confidence_score := 17/20 }
        recommendations :=
          [{ rtype := "immediate"
             message := "High solar output - Optimal time for irrigation"
             priority := "high" }] }
    irrigation :=
      { current_soil_moisture :=
          { predicted_soil_moisture_percent := 65, moisture_status := "adequate" }
        irrigation_recommendations :=
          [{ priority := "medium"
             message := "Schedule irrigation in 4 hours for optimal efficiency" }] } }

/-- Hardcoded fallback payload of the catch branch of loadAIInsights,
transcribed literally from the dashboard source. -/
def fallbackInsightsCatch : UiAIInsights :=
  { solar :=
      { current_conditions := { predicted_power_kw := 21/5, confidence_score := 17/20 }
        recommendations :=
          [{ rtype := "immediate"
             message := "High solar output - Optimal time for irrigation"
             priority := "high" }] }
    irrigation :=
      { current_soil_moisture :=
          { predicted_soil_moisture_percent := 65, moisture_status := "adequate" }
        irrigation_recommendations :=
          [{ priority := "medium"
             message := "Schedule irrigation in 4 hours for optimal efficiency" }] } }

/-- The aiInsights state set by loadAIInsights as a function of the fetch
outcome: an ok response is stored as-is; a non-ok response and a thrown
fetch error each store their hardcoded fallback payload instead of
surfacing the failure. -/
def loadAIInsights : FetchOutcome → UiAIInsights
  | .ok p => p
  | .httpNotOk => fallbackInsightsHttp
  | .fetchThrown => fallbackInsightsCatch

/-- Entry of the 24-hour weather forecast generated by the dashboard. -/
structure ForecastEntry where
  ambient_temperature : ℚ
  module_temperature : ℚ
  irradiation : ℚ
  humidity : ℚ
  wind_speed : ℚ
deriving DecidableEq, Repr

/-- The 24-hour weather forecast generated by the dashboard, parametrized
by the external library calls: sinAt i stands for the float sine of
i times pi over 12, and randH i and randW i stand for the two
Math.random() draws of entry i (each inside the interval 0 inclusive to 1
exclusive). -/
def weatherForecast (sinAt randH randW : ℕ → ℚ) : List ForecastEntry :=
  (List.range 24).map fun i =>
    { ambient_temperature := 25 + sinAt i * 8
      module_temperature := 35 + sinAt i * 10
      irradiation := maxQ 0 (800 * sinAt i)
      humidity := 50 + randH i * 20
      wind_speed := 2 + randW i * 3 }

/-! Example inputs used by concrete witnesses. -/

/-- Pump reading of the documented health-analysis example: flow 45,
pressure 3.2, power 5.5, vibration 0.15, temperature 48. -/
def opReadingEx : OperationalReading :=
  { flow_rate := 45, pressure := 16/5, power_consumption := 11/2
    vibration_level := 3/20, temperature := 48 }

/-- Health assessment produced for opReadingEx. -/
def assessmentEx : HealthAssessment :=
  { health_score := 1
    is_anomaly := false
    status := .normal
    parameter_analysis :=
      [("flow_rate", true), ("pressure", true), ("power_consumption", true),
       ("vibration_level", true), ("temperature", true)] }

/-- Pump reading with a negative flow rate. -/
def negReadingEx : OperationalReading :=
  { flow_rate := -1, pressure := 3, power_consumption := 5
    vibration_level := 1/10, temperature := 40 }

/-- Farm profile whose predicted moisture is critical: ten days since
irrigation on sandy soil. -/
def farmCriticalEx : FarmProfile :=
  { crop_type := .cereals, soil_type := .sandy, growth_stage := .mid
    days_since_irrigation := 10, irrigation_efficiency := 17/20
    farm_area_m2 := 1000 }

/-- Farm profile whose predicted moisture is adequate: two days since
irrigation on loamy soil. -/
def farmAdequateEx : FarmProfile :=
  { crop_type := .cereals, soil_type := .loamy, growth_stage := .mid
    days_since_irrigation := 2, irrigation_efficiency := 17/20
    farm_area_m2 := 1000 }

/-- Power prediction with positive predicted power. -/
def positivePredictionEx : PowerPrediction :=
  { predicted_power_kw := 3, confidence_score := 4/5 }

/-- Forecast entry produced with a zero sine value and random draws of
one half and zero. -/
def forecastEntryEx : ForecastEntry :=
  { ambient_temperature := 25, module_temperature := 35, irradiation := 0
    humidity := 60, wind_speed := 2 }

/-! Theorems settling the claims. -/

/-- Claim C2: for every weather reading whose irradiance equals zero,
predict_power returns a prediction with zero predicted power. -/
theorem c2_zero_irradiance_zero_power (r : WeatherReading)
    (h : r.irradiance = 0) : (predict_power r).predicted_power_kw = 0 := by
  simp [predict_power, clampQ, maxQ, h]

/-- Witness of claim C2 at a concrete reading with zero irradiance. -/
theorem c2_witness :
    ({ roundTripReading with irradiance := 0 } : WeatherReading).irradiance = 0 ∧
    (predict_power { roundTripReading with irradiance := 0 }).predicted_power_kw = 0 :=
  ⟨rfl, c2_zero_irradiance_zero_power { roundTripReading with irradiance := 0 } rfl⟩

/-- Claim C4: daily_forecast returns exactly one prediction per input
reading, in input order — the i-th prediction is predict_power of the
i-th reading. -/
theorem c4_daily_forecast_order_preserving (rs : List WeatherReading) :
    (daily_forecast rs).length = rs.length ∧
    ∀ i : ℕ, (daily_forecast rs)[i]? = (rs[i]?).map predict_power := by
  refine ⟨by simp [daily_forecast], fun i => ?_⟩
  simp [daily_forecast]

/-- Claim C9: predict_power is deterministic — its result does not depend
on any inference-time process state, and at the fixed round-trip reading
it always returns the same concrete predicted power. -/
theorem c9_predict_power_deterministic :
    (∀ (s₁ s₂ : ℕ) (r : WeatherReading),
      predict_power_at s₁ r = predict_power_at s₂ r) ∧
    (predict_power_at 0 roundTripReading).predicted_power_kw = 423/100 := by
  refine ⟨fun s₁ s₂ r => rfl, ?_⟩
  norm_num [predict_power_at, predict_power, clampQ, maxQ, systemCapacityKw,
    deratePerDegree, roundTripReading]

/-- Claim C3: on both failure branches of the farmer dashboard request
(non-ok HTTP response and thrown fetch error) the frontend substitutes the
one fixed hardcoded fallback AI-insights payload — solar 4.2 kW at
confidence 0.85, soil moisture 65 percent with status adequate — identical
in both branches. -/
theorem c3_fallback_on_failure (o : FetchOutcome)
    (h : o = .httpNotOk ∨ o = .fetchThrown) :
    loadAIInsights o = fallbackInsightsHttp ∧
    fallbackInsightsHttp = fallbackInsightsCatch ∧
    fallbackInsightsHttp.solar.current_conditions.predicted_power_kw = 21/5 ∧
    fallbackInsightsHttp.solar.current_conditions.confidence_score = 17/20 ∧
    fallbackInsightsHttp.irrigation.current_soil_moisture.predicted_soil_moisture_percent = 65 ∧
    fallbackInsightsHttp.irrigation.current_soil_moisture.moisture_status = "adequate" := by
  rcases h with rfl | rfl <;> exact ⟨rfl, rfl, rfl, rfl, rfl, rfl⟩

/-- Witness of claim C3 at the non-ok HTTP outcome. -/
theorem c3_witness :
    loadAIInsights .httpNotOk = fallbackInsightsHttp ∧
    fallbackInsightsHttp = fallbackInsightsCatch ∧
    fallbackInsightsHttp.solar.current_conditions.predicted_power_kw = 21/5 ∧
    fallbackInsightsHttp.solar.current_conditions.confidence_score = 17/20 ∧
    fallbackInsightsHttp.irrigation.current_soil_moisture.predicted_soil_moisture_percent = 65 ∧
    fallbackInsightsHttp.irrigation.current_soil_moisture.moisture_status = "adequate" :=
  c3_fallback_on_failure .httpNotOk (Or.inl rfl)

/-- Claim C10: every entry of the dashboard-generated 24-hour weather
forecast has non-negative irradiation, and its humidity lies in the band
50 to 70, a subset of 0 to 100 — for any values of the external sine and
for Math.random draws inside the unit interval. -/
theorem c10_forecast_invariants (sinAt randH randW : ℕ → ℚ)
    (h : ∀ i, 0 ≤ randH i ∧ randH i < 1) :
    ∀ e ∈ weatherForecast sinAt randH randW,
      0 ≤ e.irradiation ∧ 50 ≤ e.humidity ∧ e.humidity ≤ 70 ∧
      0 ≤ e.humidity ∧ e.humidity ≤ 100 := by
  intro e he
  simp only [weatherForecast, List.mem_map, List.mem_range] at he
  obtain ⟨i, -, rfl⟩ := he
  obtain ⟨h0, h1⟩ := h i
  have hm0 : 0 ≤ randH i * 20 := mul_nonneg h0 (by norm_num)
  have hm1 : randH i * 20 < 20 := by nlinarith
  dsimp only
  refine ⟨?_, by linarith, by linarith, by linarith, by linarith⟩
  unfold maxQ
  split <;> linarith

/-- Witness of claim C10 with zero sine values and random draws of one
half and zero. -/
theorem c10_witness :
    0 ≤ forecastEntryEx.irradiation ∧ 50 ≤ forecastEntryEx.humidity ∧
    forecastEntryEx.humidity ≤ 70 ∧ 0 ≤ forecastEntryEx.humidity ∧
    forecastEntryEx.humidity ≤ 100 :=
  c10_forecast_invariants (fun _ => 0) (fun _ => 1/2) (fun _ => 0)
    (fun _ => by norm_num) forecastEntryEx
    (List.mem_map.mpr ⟨0, by simp, by norm_num [forecastEntryEx, maxQ]⟩)

/-- The status bucketing function is consistent with its thresholds. -/
theorem statusOfScore_bucket (s : ℚ) :
    (statusOfScore s = .critical ↔ s < 1/2) ∧
    (statusOfScore s = .normal ↔ 4/5 ≤ s) ∧
    (statusOfScore s = .warning ↔ 1/2 ≤ s ∧ s < 4/5) := by
  unfold statusOfScore
  by_cases h1 : s < 1/2
  · rw [if_pos h1]
    refine ⟨⟨fun _ => h1, fun _ => rfl⟩,
      ⟨fun hc => HealthStatus.noConfusion hc, fun hge => absurd hge (by linarith)⟩,
      ⟨fun hc => HealthStatus.noConfusion hc, fun hge => absurd hge.1 (by linarith)⟩⟩
  · by_cases h2 : s < 4/5
    · rw [if_neg h1, if_pos h2]
      refine ⟨⟨fun hc => HealthStatus.noConfusion hc, fun hlt => absurd hlt h1⟩,
        ⟨fun hc => HealthStatus.noConfusion hc, fun hge => absurd hge (by linarith)⟩,
        ⟨fun _ => ⟨by linarith, h2⟩, fun _ => rfl⟩⟩
    · rw [if_neg h1, if_neg h2]
      refine ⟨⟨fun hc => HealthStatus.noConfusion hc, fun hlt => absurd hlt h1⟩,
        ⟨fun _ => by linarith, fun _ => rfl⟩,
        ⟨fun hc => HealthStatus.noConfusion hc, fun hge => absurd hge.2 h2⟩⟩

/-- Claim C1: every health assessment produced by analyze_operational has
status and health_score consistent: critical exactly below 0.5, normal
exactly at or above 0.8, warning exactly in between. -/
theorem c1_status_score_consistent (r : OperationalReading)
    (a : HealthAssessment) (h : analyze_operational r = .ok a) :
    (a.status = .critical ↔ a.health_score < 1/2) ∧
    (a.status = .normal ↔ 4/5 ≤ a.health_score) ∧
    (a.status = .warning ↔ 1/2 ≤ a.health_score ∧ a.health_score < 4/5) := by
  unfold analyze_operational at h
  split at h
  · exact Except.noConfusion h
  · split at h
    · exact Except.noConfusion h
    · split at h
      · exact Except.noConfusion h
      · injection h with h
        subst h
        exact statusOfScore_bucket (operationalHealthScore r)

/-- Witness of claim C1 at the documented pump reading, whose assessment
has a health score of one and status normal. -/
theorem c1_witness :
    analyze_operational opReadingEx = .ok assessmentEx ∧
    ((assessmentEx.status = .critical ↔ assessmentEx.health_score < 1/2) ∧
     (assessmentEx.status = .normal ↔ 4/5 ≤ assessmentEx.health_score) ∧
     (assessmentEx.status = .warning ↔
       1/2 ≤ assessmentEx.health_score ∧ assessmentEx.health_score < 4/5)) := by
  have hEq : analyze_operational opReadingEx = .ok assessmentEx := by
    norm_num [analyze_operational, opReadingEx, operationalHealthScore,
      outOfRangeCount, parameterAnalysis, inRange, clampQ, statusOfScore,
      operationalAnomalyBoundary, assessmentEx]
  exact ⟨hEq, c1_status_score_consistent opReadingEx assessmentEx hEq⟩

/-- Claim C8: a reading with a negative flow rate, pressure or power
consumption is rejected by analyze_operational with a ValidationError
naming an offending (negative) field, and no health assessment is
produced. -/
theorem c8_negative_field_rejected (r : OperationalReading)
    (h : r.flow_rate < 0 ∨ r.pressure < 0 ∨ r.power_consumption < 0) :
    (∃ f, analyze_operational r = .error { fieldName := f } ∧
      ((f = "flow_rate" ∧ r.flow_rate < 0) ∨
       (f = "pressure" ∧ r.pressure < 0) ∨
       (f = "power_consumption" ∧ r.power_consumption < 0))) ∧
    ∀ a, analyze_operational r ≠ .ok a := by
  by_cases hf : r.flow_rate < 0
  · refine ⟨⟨"flow_rate", ?_, Or.inl ⟨rfl, hf⟩⟩, fun a => ?_⟩ <;>
      simp [analyze_operational, hf]
  · by_cases hp : r.pressure < 0
    · refine ⟨⟨"pressure", ?_, Or.inr (Or.inl ⟨rfl, hp⟩)⟩, fun a => ?_⟩ <;>
        simp [analyze_operational, hf, hp]
    · have hpc : r.power_consumption < 0 := by tauto
      refine ⟨⟨"power_consumption", ?_, Or.inr (Or.inr ⟨rfl, hpc⟩)⟩, fun a => ?_⟩ <;>
        simp [analyze_operational, hf, hp, hpc]

/-- Witness of claim C8 at a reading with negative flow rate. -/
theorem c8_witness :
    (∃ f, analyze_operational negReadingEx = .error { fieldName := f } ∧
      ((f = "flow_rate" ∧ negReadingEx.flow_rate < 0) ∨
       (f = "pressure" ∧ negReadingEx.pressure < 0) ∨
       (f = "power_consumption" ∧ negReadingEx.power_consumption < 0))) ∧
    ∀ a, analyze_operational negReadingEx ≠ .ok a :=
  c8_negative_field_rejected negReadingEx
    (Or.inl (by norm_num [negReadingEx]))

/-- Claim C5: calculate_water_demand is monotonically non-increasing in
rainfall_24h with everything else fixed, and its result is never
negative. -/
theorem c5_demand_rain_antitone_nonneg :
    (∀ (env : WeatherReading) (farm : FarmProfile) (r₁ r₂ : ℚ), r₁ ≤ r₂ →
      calculate_water_demand (withRainfall env r₂) farm ≤
        calculate_water_demand (withRainfall env r₁) farm) ∧
    (∀ (env : WeatherReading) (farm : FarmProfile),
      0 ≤ calculate_water_demand env farm) := by
  constructor
  · intro env farm r₁ r₂ hr
    have hbase : baseWaterDemand (withRainfall env r₂) farm =
        baseWaterDemand (withRainfall env r₁) farm := by
      simp [baseWaterDemand, referenceEt0, withRainfall]
    have hrain₂ : (withRainfall env r₂).rainfall_24h = r₂ := rfl
    have hrain₁ : (withRainfall env r₁).rainfall_24h = r₁ := rfl
    simp only [calculate_water_demand, maxQ, hbase, hrain₁, hrain₂]
    split <;> split <;> linarith
  · intro env farm
    simp only [calculate_water_demand, maxQ]
    split <;> linarith

/-- Witness of claim C5: more rainfall at a fixed reading does not raise
the demand, and the demand is non-negative there. -/
theorem c5_witness :
    calculate_water_demand (withRainfall roundTripReading 5) farmAdequateEx ≤
      calculate_water_demand (withRainfall roundTripReading 2) farmAdequateEx ∧
    0 ≤ calculate_water_demand roundTripReading farmAdequateEx :=
  ⟨c5_demand_rain_antitone_nonneg.1 roundTripReading farmAdequateEx 2 5
      (by norm_num),
   c5_demand_rain_antitone_nonneg.2 roundTripReading farmAdequateEx⟩

/-- The running value of the window scan never decreases below its
starting value. -/
theorem bestSlotAux_snd_ge (xs : List ℚ) :
    ∀ bi bv i, bv ≤ (bestSlotAux bi bv i xs).2 := by
  induction xs with
  | nil => intro bi bv i; simp [bestSlotAux]
  | cons x xs ih =>
    intro bi bv i
    simp only [bestSlotAux]
    split
    · exact le_of_lt (lt_of_lt_of_le (by assumption) (ih i x (i + 1)))
    · exact ih bi bv (i + 1)

/-- The window scan's final value dominates every scanned element. -/
theorem bestSlotAux_snd_mem_le (xs : List ℚ) :
    ∀ bi bv i x, x ∈ xs → x ≤ (bestSlotAux bi bv i xs).2 := by
  induction xs with
  | nil => intro _ _ _ x hx; cases hx
  | cons y ys ih =>
    intro bi bv i x hx
    simp only [bestSlotAux]
    rcases List.mem_cons.1 hx with rfl | hx2
    · split
      · exact bestSlotAux_snd_ge ys i x (i + 1)
      · exact le_trans (le_of_not_lt (by assumption)) (bestSlotAux_snd_ge ys bi bv (i + 1))
    · split
      · exact ih i y (i + 1) x hx2
      · exact ih bi bv (i + 1) x hx2

/-- A forecast containing a positive value has a best slot with positive
value. -/
theorem bestSlot_pos (l : List ℚ) (x : ℚ) (hx : x ∈ l) (hpos : 0 < x) :
    ∃ i v, bestSlot l = some (i, v) ∧ 0 < v := by
  cases l with
  | nil => cases hx
  | cons y ys =>
    refine ⟨(bestSlotAux 0 y 1 ys).1, (bestSlotAux 0 y 1 ys).2, rfl, ?_⟩
    rcases List.mem_cons.1 hx with rfl | hx2
    · exact lt_of_lt_of_le hpos (bestSlotAux_snd_ge ys 0 x 1)
    · exact lt_of_lt_of_le hpos (bestSlotAux_snd_mem_le ys 0 y 1 x hx2)

/-- Claim C6: when the predicted moisture status is critical, the plan
returned by optimize_schedule starts in the immediate window whatever the
solar forecast holds, and its optimization score is the weighted
combination with both the solar-alignment and the urgency-inverse
components zeroed — the urgency penalty. -/
theorem c6_critical_immediate (env : WeatherReading) (farm : FarmProfile)
    (fc : List PowerPrediction)
    (h : (predict_soil_moisture env farm).status = .critical) :
    (optimize_schedule env farm fc).schedule.head?.map ScheduleEntry.start_time =
      some 0 ∧
    (optimize_schedule env farm fc).optimization_score =
      optScore 0 0 (waterSavingsPart env farm) := by
  simp [optimize_schedule, h]

/-- Witness of claim C6 at a farm ten days past irrigation on sandy soil,
whose predicted moisture is critical. -/
theorem c6_witness :
    (optimize_schedule roundTripReading farmCriticalEx []).schedule.head?.map
        ScheduleEntry.start_time = some 0 ∧
    (optimize_schedule roundTripReading farmCriticalEx []).optimization_score =
      optScore 0 0 (waterSavingsPart roundTripReading farmCriticalEx) :=
  c6_critical_immediate roundTripReading farmCriticalEx []
    (by norm_num [predict_soil_moisture, roundTripReading, farmCriticalEx,
      soilMoistureOffset, clampQ, moistureStatusOf])

/-- Claim C7 as stated is false: with a critical predicted moisture the
plan for an empty solar forecast starts immediately, not in the fixed
early-morning default window. -/
theorem c7_counterexample :
    ¬ ((optimize_schedule roundTripReading farmCriticalEx []).schedule.head?.map
        ScheduleEntry.start_time = some defaultWindowStart) := by
  norm_num [optimize_schedule, predict_soil_moisture, roundTripReading,
    farmCriticalEx, soilMoistureOffset, clampQ, moistureStatusOf,
    defaultWindowStart]

/-- Claim C7, amended: whenever the predicted moisture status is not
critical, optimize_schedule on an empty solar forecast returns (without
failing) a plan scheduled in the fixed early-morning default window, and
its optimization score is strictly lower than the score of the
solar-aligned plan for any forecast holding a positive power
prediction. -/
theorem c7_empty_forecast_default_window (env : WeatherReading)
    (farm : FarmProfile)
    (h : (predict_soil_moisture env farm).status ≠ .critical) :
    (optimize_schedule env farm []).schedule.head?.map ScheduleEntry.start_time =
      some defaultWindowStart ∧
    ∀ (fc : List PowerPrediction) (p : PowerPrediction), p ∈ fc →
      0 < p.predicted_power_kw →
      (optimize_schedule env farm []).optimization_score <
        (optimize_schedule env farm fc).optimization_score := by
  constructor
  · simp [optimize_schedule, h, bestSlot]
  · intro fc p hp hpos
    obtain ⟨i, v, hbs, hv⟩ :=
      bestSlot_pos (fc.map PowerPrediction.predicted_power_kw)
        p.predicted_power_kw (List.mem_map_of_mem _ hp) hpos
    have hnil : bestSlot ([] : List ℚ) = none := rfl
    simp only [optimize_schedule, h, ite_false, List.map_nil, hnil, hbs, hv,
      if_true, ite_true]
    unfold optScore
    linarith

/-- Witness of claim C7 at a farm two days past irrigation on loamy soil
(moisture adequate) and a one-entry forecast with positive power. -/
theorem c7_witness :
    (optimize_schedule roundTripReading farmAdequateEx []).schedule.head?.map
        ScheduleEntry.start_time = some defaultWindowStart ∧
    (optimize_schedule roundTripReading farmAdequateEx []).optimization_score <
      (optimize_schedule roundTripReading farmAdequateEx
        [positivePredictionEx]).optimization_score := by
  have h : (predict_soil_moisture roundTripReading farmAdequateEx).status ≠
      .critical := by
    have hs : (predict_soil_moisture roundTripReading farmAdequateEx).status =
        .adequate := by
      norm_num [predict_soil_moisture, roundTripReading, farmAdequateEx,
        soilMoistureOffset, clampQ, moistureStatusOf]
    rw [hs]
    exact fun hc => MoistureStatus.noConfusion hc
  exact ⟨(c7_empty_forecast_default_window roundTripReading farmAdequateEx h).1,
    (c7_empty_forecast_default_window roundTripReading farmAdequateEx h).2
      [positivePredictionEx] positivePredictionEx (List.mem_cons_self _ _)
      (by norm_num [positivePredictionEx])⟩

end Srems
